import Mathlib

/-!
Verification of the pystream monthly STREAM hydrological model.

The development shallowly embeds the per-pixel arithmetic of
`pystream/models.py`, `pystream/monthly_simulation.py` and
`pystream/stream.py` over the rationals.  All numpy grid operations used
by the model are elementwise, so grids are embedded as functions from an
abstract finite, nonempty cell-index type into the rationals, and every
elementwise operation is stated per cell.  Three operations of the code
are not rational arithmetic and are taken as explicit function
parameters of the embedding:

* `exp : Rat -> Rat` stands for `np.exp` (used in the drying branch of
  the soil-storage step); the theorems that need properties of the real
  exponential take them as hypotheses on this parameter.
* `rpow : Rat -> Rat -> Rat` stands for the floating-point power
  operator `**` with a non-integer exponent (Thornthwaite mid-regime
  formula and the yearly heat index).
* `accumulate : (cell -> Rat) -> cell -> Rat` stands for
  `richdem.FlowAccumulation` (an external library, not part of this
  repository), which maps the monthly per-pixel outflow grid to the
  accumulated-flow grid.

Numpy boolean-mask assignments such as `a[mask] = v` are embedded as
per-cell conditional rebindings applied in the same textual order as
the source, so that the last write wins exactly as in the code.
-/

namespace PyStream

/-- Per-cell outcome of a snow step: the quantities the source computes
before returning `(liquid, snow_accum)`. -/
structure SnowOut where
  snowfall : ℚ
  melt : ℚ
  pack_next : ℚ
  liquid : ℚ
deriving DecidableEq, Repr

/-- Calibration parameters of `MonthlySimulation.__init__` (the
`init_parameters` dictionary), with the documented defaults. -/
structure Params where
  HEAT_COEFF : ℚ := 1
  TEMP_SNOW_FALL : ℚ := 2
  TEMP_SNOW_MELT : ℚ := 0
  SNOW_MELT_COEFF : ℚ := 15
  CROPF_COEFF : ℚ := 3 / 2
  WHC_COEFF : ℚ := 3 / 2
  TOGW : ℚ := 1 / 2
  C : ℚ := 1 / 5
deriving Repr

/-- Standalone snow function of `pystream/models.py` (`snow`), per cell.
`snowfall_i[temp_avg_i > TEMP_SNOW_MELT] = 0`;
`snow_melt_i = SNOW_MELT_COEFF * (temp_max_i + SNOW_MELT_SHIFT)` with
`snow_melt_i[(temp_max_i + SNOW_MELT_SHIFT) < TEMP_SNOW_MELT] = 0`;
`snow_melt_i = np.minimum(snow_accum_i, snow_melt_i)`; returns
`(liquid_prec_i, snow_accum_i)`. -/
def snow (prec_i temp_avg_i temp_max_i snow_accum_prev tempSnowMelt
    snowMeltCoeff snowMeltShift : ℚ) : ℚ × ℚ :=
  let snowfall_i := if temp_avg_i > tempSnowMelt then 0 else prec_i
  let snow_accum_i := snow_accum_prev + snowfall_i
  let snow_melt_i := snowMeltCoeff * (temp_max_i + snowMeltShift)
  let snow_melt_i := if temp_max_i + snowMeltShift < tempSnowMelt then 0 else snow_melt_i
  let snow_melt_i := min snow_accum_i snow_melt_i
  let snow_accum_i := snow_accum_i - snow_melt_i
  let liquid_prec_i := prec_i - snowfall_i + snow_melt_i
  (liquid_prec_i, snow_accum_i)

/-- Inline snow block of `MonthlySimulation._simulation_step`
(`monthly_simulation.py` lines 172-194), per cell:
`snowfall_i[temp_i > self.TEMP_SNOW_FALL] = 0`;
`snow_melt_i = self.SNOW_MELT_COEFF * (temp_i - self.TEMP_SNOW_MELT)` with
`snow_melt_i[temp_i < self.TEMP_SNOW_MELT] = 0`;
`snow_melt_i = np.minimum(snow_accum_i, snow_melt_i)`;
`snow_accum_i = snow_accum_i - snow_melt_i`;
`liquid_prec_i = prec_i - snowfall_i + snow_melt_i`. -/
def snow_cell (p : Params) (prec_i temp_i snow_accum_prev : ℚ) : SnowOut :=
  let snowfall_i := if temp_i > p.TEMP_SNOW_FALL then 0 else prec_i
  let snow_accum_i := snow_accum_prev + snowfall_i
  let snow_melt_i := p.SNOW_MELT_COEFF * (temp_i - p.TEMP_SNOW_MELT)
  let snow_melt_i := if temp_i < p.TEMP_SNOW_MELT then 0 else snow_melt_i
  let snow_melt_i := min snow_accum_i snow_melt_i
  { snowfall := snowfall_i
    melt := snow_melt_i
    pack_next := snow_accum_i - snow_melt_i
    liquid := prec_i - snowfall_i + snow_melt_i }

/-- Snow step exactly as the spec words it (section 4.3): `snowfall =
precip` where `temp <= snow_fall_threshold` else `0`; potential melt
`melt_coeff * (temp - snow_melt_threshold)` clamped to `0` where
`temp < snow_melt_threshold`; actual melt
`min(snow_pack_prev + snowfall, potential_melt)`;
`snow_pack_next = snow_pack_prev + snowfall - melt`;
`liquid_precip = precip - snowfall + melt`.  Declared only to be
compared with the definitions embedded from the source. -/
def snow_spec_cell (fallThr meltThr meltCoeff prec temp pack_prev : ℚ) : SnowOut :=
  let snowfall := if temp ≤ fallThr then prec else 0
  let potential := if temp < meltThr then 0 else meltCoeff * (temp - meltThr)
  let melt := min (pack_prev + snowfall) potential
  { snowfall := snowfall
    melt := melt
    pack_next := pack_prev + snowfall - melt
    liquid := prec - snowfall + melt }

/-- Behaviour of the standalone `models.snow` as described by the
amended claim: snowfall is zeroed where the average temperature exceeds
`TEMP_SNOW_MELT`, and potential melt is
`SNOW_MELT_COEFF * (temp_max + SNOW_MELT_SHIFT)`, clamped to `0` where
`temp_max + SNOW_MELT_SHIFT < TEMP_SNOW_MELT`; cap, pack update and
liquid precipitation are as in the original claim.  Declared only to be
compared with the definition embedded from the source. -/
def snow_model_amended (meltThr meltCoeff meltShift prec temp_avg temp_max
    pack_prev : ℚ) : SnowOut :=
  let snowfall := if temp_avg ≤ meltThr then prec else 0
  let potential := if temp_max + meltShift < meltThr then 0
    else meltCoeff * (temp_max + meltShift)
  let melt := min (pack_prev + snowfall) potential
  { snowfall := snowfall
    melt := melt
    pack_next := pack_prev + snowfall - melt
    liquid := prec - snowfall + melt }

/-- Temperature-regime masks of the Thornthwaite potential
evapotranspiration, per cell, mirroring the mask writes of
`models.potential_evapotranspiration` and of the inline block of
`MonthlySimulation._simulation_step` (which are identical): the array
starts as `np.nan` (embedded as `none`), then the `temp >= 26.5` mask,
the `(temp > 0) & (temp < 26.5)` mask and the `temp <= 0` mask are
written in this order. -/
def pe_cell (rpow : ℚ → ℚ → ℚ) (temp heat alpha : ℚ) : Option ℚ :=
  let pe0 : Option ℚ := none
  let pe1 := if 26.5 ≤ temp then
      some (-415.85 + 32.24 * temp - 0.43 * temp ^ 2) else pe0
  let pe2 := if 0 < temp ∧ temp < 26.5 then
      some (16 * rpow (10 * (temp / heat)) alpha) else pe1
  let pe3 := if temp ≤ 0 then some 0 else pe2
  pe3

/-- Potential evapotranspiration of the inline block of
`MonthlySimulation._simulation_step` (lines 196-206), including the
final scaling `pe_i *= (daylight_hours / 12) * self.cropf *
self.CROPF_COEFF`. -/
def potential_evapotranspiration (rpow : ℚ → ℚ → ℚ)
    (temp heat alpha cropf cropfCoeff daylight : ℚ) : Option ℚ :=
  (pe_cell rpow temp heat alpha).map
    (fun v => v * (daylight / 12 * cropf * cropfCoeff))

/-- Standalone `models.potential_evapotranspiration`, whose final
scaling is `pe_i = pe_i * cropf * CROPF_COEFF` (no daylight factor). -/
def potential_evapotranspiration_model (rpow : ℚ → ℚ → ℚ)
    (temp heat alpha cropf cropfCoeff : ℚ) : Option ℚ :=
  (pe_cell rpow temp heat alpha).map (fun v => v * cropf * cropfCoeff)

/-- Soil-storage step of `models.soil_storage`, per cell; the inline
block of `MonthlySimulation._simulation_step` (lines 221-245) performs
the same computation verbatim with `whc = self.whc * self.WHC_COEFF`.
The three mask writes (`below_cap`, `above_cap`, `drying`) are applied
in the source's order, so the `drying` write is the last one and wins
wherever its mask holds.  `exp` stands for `np.exp`. -/
def soil_storage (exp : ℚ → ℚ)
    (liquid_prec_i pe_i available_water_prev whc : ℚ) : ℚ × ℚ :=
  let prec_eff_i := liquid_prec_i - pe_i
  let available_water_i := available_water_prev
  let excess_i : ℚ := 0
  let excess_i := if available_water_prev + prec_eff_i ≤ whc then 0 else excess_i
  let available_water_i := if available_water_prev + prec_eff_i ≤ whc then
      available_water_prev + prec_eff_i else available_water_i
  let excess_i := if whc < available_water_prev + prec_eff_i then
      available_water_prev + prec_eff_i - whc else excess_i
  let available_water_i := if whc < available_water_prev + prec_eff_i then
      whc else available_water_i
  let excess_i := if prec_eff_i ≤ 0 then 0 else excess_i
  let available_water_i := if prec_eff_i ≤ 0 then
      available_water_prev * exp (prec_eff_i / whc) else available_water_i
  (excess_i, available_water_i)

/-- Per-cell outcome of the flow-separation block. -/
structure FlowOut where
  runoff : ℚ
  recharge : ℚ
  base_flow : ℚ
  gw_next : ℚ
  outflow : ℚ
deriving DecidableEq, Repr

/-- Flow-separation block of `MonthlySimulation._simulation_step`
(lines 247-259), per cell: `runoff_i = (1 - TOGW) * excess_i`;
`to_ground_water_i = excess_i - runoff_i`;
`ground_water_i = ground_water + to_ground_water_i`;
`base_flow_i = ground_water_i * C`; the new ground water is
`ground_water_i - base_flow_i`; and
`outflow_i = (runoff_i + base_flow_i) / 1000 * res[0] * res[1]`. -/
def flow_separation (togw c excess_i ground_water_prev res0 res1 : ℚ) : FlowOut :=
  let runoff_i := (1 - togw) * excess_i
  let to_ground_water_i := excess_i - runoff_i
  let ground_water_i := ground_water_prev + to_ground_water_i
  let base_flow_i := ground_water_i * c
  { runoff := runoff_i
    recharge := to_ground_water_i
    base_flow := base_flow_i
    gw_next := ground_water_i - base_flow_i
    outflow := (runoff_i + base_flow_i) / 1000 * res0 * res1 }

/-- Per-cell mutable state of a `MonthlySimulation`: the three state
grids `snow_accum`, `available_water` and `ground_water`, all
initialized to zero at construction. -/
structure CellState where
  snow_accum : ℚ
  available_water : ℚ
  ground_water : ℚ
deriving DecidableEq, Repr

/-- One month of climatological data: a precipitation grid and a
temperature grid. -/
structure MonthData (ι : Type) where
  prec : ι → ℚ
  temp : ι → ℚ

/-- Static configuration of a `MonthlySimulation` after `__init__`:
parameters, terrain grids, resolution, per-month climatological data
and the optional monthly daylight hours. -/
structure Config (ι : Type) where
  p : Params
  cropf : ι → ℚ
  whc : ι → ℚ
  res : ℚ × ℚ
  months : List (MonthData ι)
  daylight_hours : List ℚ

/-- All per-month inputs passed to `_simulation_step`: the month's
precipitation and temperature grids, the yearly heat index and alpha
grids, and the month's daylight hours. -/
structure MonthInput (ι : Type) where
  prec : ι → ℚ
  temp : ι → ℚ
  heat : ι → ℚ
  alpha : ι → ℚ
  daylight : ℚ

/-- A default `MonthInput`, used only as the fallback of `List.getD`. -/
def month_default {ι : Type} : MonthInput ι :=
  ⟨fun _ => 0, fun _ => 0, fun _ => 0, fun _ => 0, 0⟩

/-- One cell of `MonthlySimulation._simulation_step` up to the
flow-separation block: snow, potential evapotranspiration (with
`whc = self.whc * self.WHC_COEFF` in the soil step), soil storage and
flow separation, returning the cell's outflow weight together with its
next state.  The `Option.getD 0` on the evapotranspiration can never
pick the default: the three temperature masks cover every temperature
(proved in `pe_regimes_exclusive_exhaustive`). -/
def step_cell (p : Params) (exp : ℚ → ℚ) (rpow : ℚ → ℚ → ℚ)
    (res0 res1 cropf whc prec temp heat alpha daylight : ℚ)
    (s : CellState) : ℚ × CellState :=
  let so := snow_cell p prec temp s.snow_accum
  let pe := (potential_evapotranspiration rpow temp heat alpha cropf
    p.CROPF_COEFF daylight).getD 0
  let soil := soil_storage exp so.liquid pe s.available_water (whc * p.WHC_COEFF)
  let fo := flow_separation p.TOGW p.C soil.1 s.ground_water res0 res1
  (fo.outflow, ⟨so.pack_next, soil.2, fo.gw_next⟩)

variable {ι : Type} [Fintype ι] [Nonempty ι]

/-- Maximum of a grid, embedding `streamflow_i.max()`. -/
def grid_max (g : ι → ℚ) : ℚ :=
  Finset.univ.sup' Finset.univ_nonempty g

/-- The monthly outflow grid `outflow_i` computed by
`_simulation_step` from the month's inputs and the current state. -/
def month_outflow (cfg : Config ι) (exp : ℚ → ℚ) (rpow : ℚ → ℚ → ℚ)
    (m : MonthInput ι) (s : ι → CellState) : ι → ℚ :=
  fun c => (step_cell cfg.p exp rpow cfg.res.1 cfg.res.2 (cfg.cropf c)
    (cfg.whc c) (m.prec c) (m.temp c) (m.heat c) (m.alpha c) m.daylight (s c)).1

/-- The state grids after one `_simulation_step`. -/
def month_next_state (cfg : Config ι) (exp : ℚ → ℚ) (rpow : ℚ → ℚ → ℚ)
    (m : MonthInput ι) (s : ι → CellState) : ι → CellState :=
  fun c => (step_cell cfg.p exp rpow cfg.res.1 cfg.res.2 (cfg.cropf c)
    (cfg.whc c) (m.prec c) (m.temp c) (m.heat c) (m.alpha c) m.daylight (s c)).2

/-- `MonthlySimulation._simulation_step`: computes the outflow grid,
applies the flow accumulation (`richdem.FlowAccumulation`, embedded as
the parameter `accumulate`) and returns the maximum of the accumulated
grid (`gauge_flow_i`) together with the updated state grids. -/
def simulation_step (cfg : Config ι) (exp : ℚ → ℚ) (rpow : ℚ → ℚ → ℚ)
    (accumulate : (ι → ℚ) → ι → ℚ) (m : MonthInput ι) (s : ι → CellState) :
    ℚ × (ι → CellState) :=
  (grid_max (accumulate (month_outflow cfg exp rpow m s)),
    month_next_state cfg exp rpow m s)

/-- The monthly loop of `MonthlySimulation.simulate`: one raw gauge
value (before the final division by `TIME_STEP`) per month, threading
the state grids from month to month. -/
def run_months (cfg : Config ι) (exp : ℚ → ℚ) (rpow : ℚ → ℚ → ℚ)
    (accumulate : (ι → ℚ) → ι → ℚ) :
    List (MonthInput ι) → (ι → CellState) → List ℚ
  | [], _ => []
  | m :: ms, s =>
      (simulation_step cfg exp rpow accumulate m s).1 ::
        run_months cfg exp rpow accumulate ms
          (simulation_step cfg exp rpow accumulate m s).2

/-- State grids after consuming a prefix of the month inputs. -/
def state_at (cfg : Config ι) (exp : ℚ → ℚ) (rpow : ℚ → ℚ → ℚ)
    (accumulate : (ι → ℚ) → ι → ℚ) (inps : List (MonthInput ι))
    (s : ι → CellState) : ι → CellState :=
  inps.foldl (fun st m => (simulation_step cfg exp rpow accumulate m st).2) s

/-- Initial state grids: `np.zeros` for all three state variables. -/
def init_state {ι : Type} : ι → CellState := fun _ => ⟨0, 0, 0⟩

/-- Seconds per month: `MonthlySimulation.TIME_STEP = 2592000`. -/
def TIME_STEP : ℚ := 2592000

/-- Daylight hours for month `i`, embedding
`itertools.cycle(self.monthly_daylight_hours)` with the fallback
`itertools.cycle([12])` when no daylight hours were provided (an absent
or empty sequence). -/
def daylight_at (dl : List ℚ) (i : ℕ) : ℚ :=
  if dl.length = 0 then 12 else dl.getD (i % dl.length) 12

/-- `MonthlySimulation._compute_alpha`, elementwise (Thornthwaite
1948). -/
def compute_alpha (h : ι → ℚ) : ι → ℚ :=
  fun c => 0.49239 + 0.01792 * h c - 0.0000771771 * h c ^ 2
    + 0.000000675 * h c ^ 3

/-- One summand of the yearly heat index: `(temp / 5) ** 1.514` with
`.fillna(0)`.  In numpy a negative base with this non-integer exponent
yields `nan`, which `fillna(0)` then replaces by `0`; the embedding
applies the replacement directly. -/
def heat_term (rpow : ℚ → ℚ → ℚ) (t : ℚ) : ℚ :=
  if t < 0 then 0 else rpow (t / 5) 1.514

/-- Yearly heat index of the auto-derived branch of `simulate`: the sum
over the year's months of `heat_term`, multiplied by `HEAT_COEFF`. -/
def year_heat_index (rpow : ℚ → ℚ → ℚ) (heatCoeff : ℚ)
    (temps : List (ι → ℚ)) : ι → ℚ :=
  fun c => heatCoeff * (temps.map (fun t => heat_term rpow (t c))).sum

/-- Month inputs of the branch of `simulate` where `heat_index` is
provided: the same heat and alpha grids for every month, daylight hours
cycled by month index. -/
def given_inputs (cfg : Config ι) (h a : ι → ℚ) : List (MonthInput ι) :=
  cfg.months.enum.map (fun im =>
    ⟨im.2.prec, im.2.temp, h, a, daylight_at cfg.daylight_hours im.1⟩)

/-- Month inputs of the branch of `simulate` where `heat_index` is
`None`: for month `i`, the heat index is computed from the temperature
grids of months `12 * (i / 12)` to `12 * (i / 12) + 11` (the month's
year block) and alpha is derived from it by `_compute_alpha`. -/
def auto_inputs (cfg : Config ι) (rpow : ℚ → ℚ → ℚ) : List (MonthInput ι) :=
  cfg.months.enum.map (fun im =>
    let yh := year_heat_index rpow cfg.p.HEAT_COEFF
      (((cfg.months.drop (12 * (im.1 / 12))).take 12).map MonthData.temp)
    ⟨im.2.prec, im.2.temp, yh, compute_alpha yh,
      daylight_at cfg.daylight_hours im.1⟩)

/-- The month inputs `simulate` actually runs on, as a function of its
`heat_index` and `alpha` arguments. -/
def sim_inputs (cfg : Config ι) (rpow : ℚ → ℚ → ℚ)
    (heat_index alpha : Option (ι → ℚ)) : List (MonthInput ι) :=
  match heat_index with
  | some h => given_inputs cfg h (alpha.getD (compute_alpha h))
  | none => auto_inputs cfg rpow

/-- `MonthlySimulation.simulate`: when `heat_index` is provided, a
missing `alpha` is derived by `_compute_alpha` and the monthly loop
runs over all months; when `heat_index` is `None`, a `ValueError` is
raised (embedded as `Except.error`) if the number of months is not a
multiple of 12, before any simulation step runs, and otherwise the loop
runs with the auto-derived yearly heat index and alpha.  The returned
series is divided elementwise by `TIME_STEP`. -/
def simulate (cfg : Config ι) (exp : ℚ → ℚ) (rpow : ℚ → ℚ → ℚ)
    (accumulate : (ι → ℚ) → ι → ℚ) (heat_index alpha : Option (ι → ℚ)) :
    Except String (List ℚ) :=
  match heat_index with
  | some h =>
      Except.ok ((run_months cfg exp rpow accumulate
        (given_inputs cfg h (alpha.getD (compute_alpha h)))
        init_state).map (fun g => g / TIME_STEP))
  | none =>
      if cfg.months.length % 12 ≠ 0 then
        Except.error "The heat index can only be computed for an entire year"
      else
        Except.ok ((run_months cfg exp rpow accumulate (auto_inputs cfg rpow)
          init_state).map (fun g => g / TIME_STEP))

/-- Inputs to `MonthlySimulation.__init__` that its validation logic
inspects: the shapes of the three terrain grids, the raw
water-holding-capacity cells, the resolution read from raster files (if
any terrain input was a filepath), the explicit `res` argument, and the
lengths of the two climatological time series. -/
structure RawInput where
  dem_shape : ℕ × ℕ
  cropf_shape : ℕ × ℕ
  whc_shape : ℕ × ℕ
  whc_values : List ℚ
  raster_res : Option (ℚ × ℚ)
  arg_res : Option (ℚ × ℚ)
  prec_len : ℕ
  temp_len : ℕ
deriving DecidableEq, Repr

/-- Resolution selected by `__init__`: the explicit `res` argument
takes preference over any resolution extracted from a raster file. -/
def effective_res (raw : RawInput) : Option (ℚ × ℚ) :=
  match raw.arg_res with
  | some r => some r
  | none => raw.raster_res

/-- Data `__init__` stores when it succeeds: the water-holding-capacity
grid after the epsilon replacement, the resolution, and the number of
months. -/
structure InitResult where
  whc_values : List ℚ
  res : ℚ × ℚ
  num_months : ℕ
deriving DecidableEq, Repr

/-- Validation logic of `MonthlySimulation.__init__`
(`monthly_simulation.py` lines 87-129): replace non-positive
water-holding-capacity cells by `whc_epsilon`; raise `ValueError` if no
resolution is available (neither the `res` argument nor one read from a
raster), if the terrain shapes do not match, or if the time dimensions
of the two climatological datasets differ, in the source's order. -/
def init (raw : RawInput) (whc_epsilon : ℚ) : Except String InitResult :=
  let whc := raw.whc_values.map (fun w => if w ≤ 0 then whc_epsilon else w)
  match effective_res raw with
  | none =>
      Except.error "If passing raster arrays the resolution must be provided"
  | some r =>
      if raw.dem_shape = raw.cropf_shape ∧ raw.cropf_shape = raw.whc_shape then
        if raw.prec_len = raw.temp_len then
          Except.ok ⟨whc, r, raw.prec_len⟩
        else
          Except.error "Time dimensions of climatological datasets do not match"
      else
        Except.error "Raster shapes do not match"

/-- Whether an `Except` value is a success. -/
def except_ok {α : Type} (e : Except String α) : Bool :=
  match e with
  | Except.ok _ => true
  | Except.error _ => false

/-- C1 counterexample: with the default parameters (snow-fall threshold
2, snow-melt threshold 0, melt coefficient 15, melt shift 0), at
precipitation 5, temperature 1 and previous snow pack 20 the standalone
`models.snow` returns liquid precipitation 20 and snow pack 5, while
the formulas of the claim give liquid precipitation 15 and snow pack
10: the standalone function zeroes snowfall using `TEMP_SNOW_MELT`, not
the snow-fall threshold. -/
theorem snow_claim_counterexample :
    snow 5 1 1 20 0 15 0 ≠
      ((snow_spec_cell 2 0 15 5 1 20).liquid,
        (snow_spec_cell 2 0 15 5 1 20).pack_next) := by
  norm_num [snow, snow_spec_cell, Prod.ext_iff]

/-- C1 (amended): the claimed elementwise formulas hold for the inline
snow block of the monthly simulation step (`snow_cell` agrees with
`snow_spec_cell` at the simulation's thresholds on every input).  The
standalone `models.snow`, however, zeroes snowfall where the average
temperature exceeds `TEMP_SNOW_MELT` (it has no snow-fall threshold
parameter) and computes potential melt as
`SNOW_MELT_COEFF * (temp_max + SNOW_MELT_SHIFT)`, clamped to 0 where
`temp_max + SNOW_MELT_SHIFT < TEMP_SNOW_MELT`; its melt cap, snow-pack
update and liquid-precipitation formulas are as claimed. -/
theorem snow_step_and_model_characterized (p : Params)
    (prec temp pack_prev prec' ta tm prev' meltThr meltCoeff meltShift : ℚ) :
    snow_cell p prec temp pack_prev =
      snow_spec_cell p.TEMP_SNOW_FALL p.TEMP_SNOW_MELT p.SNOW_MELT_COEFF
        prec temp pack_prev ∧
    snow prec' ta tm prev' meltThr meltCoeff meltShift =
      ((snow_model_amended meltThr meltCoeff meltShift prec' ta tm prev').liquid,
        (snow_model_amended meltThr meltCoeff meltShift prec' ta tm prev').pack_next) := by
  constructor
  · rcases le_or_lt temp p.TEMP_SNOW_FALL with h | h
    · simp [snow_cell, snow_spec_cell, h, not_lt.mpr h]
    · simp [snow_cell, snow_spec_cell, h, not_le.mpr h]
  · rcases le_or_lt ta meltThr with h | h
    · simp [snow, snow_model_amended, h, not_lt.mpr h]
    · simp [snow, snow_model_amended, h, not_le.mpr h]

/-- C2: wherever the effective precipitation `liquid_precip -
potential_et` is nonpositive (so that in particular the
below-capacity predicate also holds under the stated hypothesis), the
drying write is the last one applied and determines the result of the
soil-storage step: the excess is 0 and the available water is
`available_water_prev * exp(effective_precip / whc)`. -/
theorem soil_drying_branch (exp : ℚ → ℚ) (liquid pe aw_prev whc : ℚ)
    (heff : liquid - pe ≤ 0) (_hbc : aw_prev + (liquid - pe) ≤ whc) :
    soil_storage exp liquid pe aw_prev whc =
      (0, aw_prev * exp ((liquid - pe) / whc)) := by
  simp [soil_storage, heff]

/-- Witness for C2 at liquid precipitation 0, potential
evapotranspiration 1, previous available water 2 and capacity 3. -/
theorem soil_drying_branch_witness :
    soil_storage (fun _ => 1) 0 1 2 3 =
      (0, 2 * (fun _ => (1 : ℚ)) ((0 - 1) / 3)) :=
  soil_drying_branch (fun _ => 1) 0 1 2 3 (by norm_num) (by norm_num)

/-- C3: if the capacity passed to the soil-storage step is strictly
positive and the previous available water lies in `[0, whc]`, then the
available water returned by the step lies in `[0, whc]`, in every
branch; `exp` is only assumed to map nonpositive arguments into
`[0, 1]`, as the real exponential does. -/
theorem soil_storage_bounds (exp : ℚ → ℚ) (liquid pe aw_prev whc : ℚ)
    (hwhc : 0 < whc) (h0 : 0 ≤ aw_prev) (h1 : aw_prev ≤ whc)
    (hexp : ∀ x : ℚ, x ≤ 0 → 0 ≤ exp x ∧ exp x ≤ 1) :
    0 ≤ (soil_storage exp liquid pe aw_prev whc).2 ∧
      (soil_storage exp liquid pe aw_prev whc).2 ≤ whc := by
  rcases le_or_lt (liquid - pe) 0 with heff | heff
  · have h2 : (soil_storage exp liquid pe aw_prev whc).2 =
        aw_prev * exp ((liquid - pe) / whc) := by
      simp [soil_storage, heff]
    have harg : (liquid - pe) / whc ≤ 0 :=
      div_nonpos_of_nonpos_of_nonneg heff hwhc.le
    obtain ⟨e0, e1⟩ := hexp _ harg
    rw [h2]
    constructor
    · exact mul_nonneg h0 e0
    · nlinarith
  · by_cases hcap : aw_prev + (liquid - pe) ≤ whc
    · have h2 : (soil_storage exp liquid pe aw_prev whc).2 =
        aw_prev + (liquid - pe) := by
        simp [soil_storage, hcap, not_lt.mpr hcap, not_le.mpr heff]
      rw [h2]
      constructor <;> linarith
    · have h2 : (soil_storage exp liquid pe aw_prev whc).2 = whc := by
        simp [soil_storage, hcap, not_le.mp hcap, not_le.mpr heff]
      rw [h2]
      exact ⟨hwhc.le, le_refl whc⟩

/-- Witness for C3 at liquid precipitation 0, potential
evapotranspiration 0, previous available water 1 and capacity 3. -/
theorem soil_storage_bounds_witness :
    0 ≤ (soil_storage (fun _ => 1) 0 0 1 3).2 ∧
      (soil_storage (fun _ => 1) 0 0 1 3).2 ≤ 3 :=
  soil_storage_bounds (fun _ => 1) 0 0 1 3 (by norm_num) (by norm_num)
    (by norm_num) (fun x _ => by norm_num)

/-- Helper: conservation identities of a capped melt. -/
theorem snow_melt_cap_aux (prev sf pot : ℚ) :
    (prev + sf - min (prev + sf) pot) + min (prev + sf) pot = prev + sf ∧
      min (prev + sf) pot ≤ prev + sf ∧
      0 ≤ prev + sf - min (prev + sf) pot := by
  refine ⟨by ring, min_le_left _ _, ?_⟩
  have := min_le_left (prev + sf) pot
  linarith

/-- C4: for every cell of a monthly snow step with nonnegative
precipitation and nonnegative previous snow pack, the new pack plus the
melt equals the previous pack plus the snowfall, the melt never exceeds
the previous pack plus the snowfall, and the new pack is
nonnegative. -/
theorem snow_mass_conservation (p : Params) (prec temp pack_prev : ℚ)
    (_hprec : 0 ≤ prec) (_hpack : 0 ≤ pack_prev) :
    (snow_cell p prec temp pack_prev).pack_next
        + (snow_cell p prec temp pack_prev).melt
        = pack_prev + (snow_cell p prec temp pack_prev).snowfall ∧
      (snow_cell p prec temp pack_prev).melt
        ≤ pack_prev + (snow_cell p prec temp pack_prev).snowfall ∧
      0 ≤ (snow_cell p prec temp pack_prev).pack_next := by
  simp only [snow_cell]
  exact snow_melt_cap_aux pack_prev _ _

/-- Witness for C4 at precipitation 3, temperature 1 and previous snow
pack 2, with the default parameters. -/
theorem snow_mass_conservation_witness :
    (snow_cell {} 3 1 2).pack_next + (snow_cell {} 3 1 2).melt
        = 2 + (snow_cell {} 3 1 2).snowfall ∧
      (snow_cell {} 3 1 2).melt ≤ 2 + (snow_cell {} 3 1 2).snowfall ∧
      0 ≤ (snow_cell {} 3 1 2).pack_next :=
  snow_mass_conservation {} 3 1 2 (by norm_num) (by norm_num)

/-- C5: every temperature falls in exactly one of the three
Thornthwaite regimes (no gap or overlap); the potential
evapotranspiration is `some` of the active regime's formula scaled by
`daylight / 12 * crop_factor * crop_coeff`; and at the default daylight
hours 12 the daylight factor is neutral, so the inline computation
agrees with the standalone `models.potential_evapotranspiration`, which
scales by `crop_factor * crop_coeff` only. -/
theorem pe_regimes_exclusive_exhaustive (rpow : ℚ → ℚ → ℚ)
    (temp heat alpha cropf cropfCoeff daylight : ℚ) :
    ((26.5 ≤ temp ∧ ¬(0 < temp ∧ temp < 26.5) ∧ ¬temp ≤ 0) ∨
      (¬26.5 ≤ temp ∧ (0 < temp ∧ temp < 26.5) ∧ ¬temp ≤ 0) ∨
      (¬26.5 ≤ temp ∧ ¬(0 < temp ∧ temp < 26.5) ∧ temp ≤ 0)) ∧
    potential_evapotranspiration rpow temp heat alpha cropf cropfCoeff daylight =
      some ((if temp ≤ 0 then 0
        else if temp < 26.5 then 16 * rpow (10 * (temp / heat)) alpha
        else -415.85 + 32.24 * temp - 0.43 * temp ^ 2) *
        (daylight / 12 * cropf * cropfCoeff)) ∧
    potential_evapotranspiration rpow temp heat alpha cropf cropfCoeff 12 =
      potential_evapotranspiration_model rpow temp heat alpha cropf cropfCoeff := by
  refine ⟨?_, ?_, ?_⟩
  · rcases le_or_lt temp 0 with h0 | h0
    · exact Or.inr (Or.inr ⟨by intro h; linarith, by rintro ⟨a, b⟩; linarith, h0⟩)
    · rcases lt_or_le temp 26.5 with h26 | h26
      · exact Or.inr (Or.inl ⟨by intro h; linarith, ⟨h0, h26⟩, by intro h; linarith⟩)
      · exact Or.inl ⟨h26, by rintro ⟨a, b⟩; linarith, by intro h; linarith⟩
  · rcases le_or_lt temp 0 with h0 | h0
    · simp [potential_evapotranspiration, pe_cell, h0]
    · rcases lt_or_le temp 26.5 with h26 | h26
      · simp [potential_evapotranspiration, pe_cell, h0, h26,
          not_le.mpr h0, not_le.mpr h26]
      · simp [potential_evapotranspiration, pe_cell, h26, not_le.mpr h0,
          not_lt.mpr h26, not_le.mpr (lt_of_lt_of_le (by norm_num : (0:ℚ) < 26.5) h26)]
  · have hfun : (fun v : ℚ => v * (12 / 12 * cropf * cropfCoeff))
        = fun v : ℚ => v * cropf * cropfCoeff := by
      funext v; ring
    unfold potential_evapotranspiration potential_evapotranspiration_model
    rw [hfun]

/-- C6: the flow-separation block computes the claimed formulas for
runoff, recharge, base flow, next ground water and discharge, and for
nonnegative excess and ground water, a split fraction and a base-flow
coefficient in `[0, 1]` and nonnegative cell dimensions, the next
ground water and the discharge are nonnegative. -/
theorem flow_separation_spec (togw c excess gw_prev res0 res1 : ℚ)
    (hex : 0 ≤ excess) (hgw : 0 ≤ gw_prev) (ht0 : 0 ≤ togw) (ht1 : togw ≤ 1)
    (hc0 : 0 ≤ c) (hc1 : c ≤ 1) (hr0 : 0 ≤ res0) (hr1 : 0 ≤ res1) :
    (flow_separation togw c excess gw_prev res0 res1).runoff
        = (1 - togw) * excess ∧
      (flow_separation togw c excess gw_prev res0 res1).recharge
        = excess - (flow_separation togw c excess gw_prev res0 res1).runoff ∧
      (flow_separation togw c excess gw_prev res0 res1).base_flow
        = (gw_prev + (flow_separation togw c excess gw_prev res0 res1).recharge) * c ∧
      (flow_separation togw c excess gw_prev res0 res1).gw_next
        = (gw_prev + (flow_separation togw c excess gw_prev res0 res1).recharge)
          - (flow_separation togw c excess gw_prev res0 res1).base_flow ∧
      (flow_separation togw c excess gw_prev res0 res1).outflow
        = ((flow_separation togw c excess gw_prev res0 res1).runoff
            + (flow_separation togw c excess gw_prev res0 res1).base_flow)
          / 1000 * res0 * res1 ∧
      0 ≤ (flow_separation togw c excess gw_prev res0 res1).gw_next ∧
      0 ≤ (flow_separation togw c excess gw_prev res0 res1).outflow := by
  have hG : 0 ≤ gw_prev + (excess - (1 - togw) * excess) := by nlinarith
  have hro : 0 ≤ (1 - togw) * excess := mul_nonneg (by linarith) hex
  have hbf : 0 ≤ (gw_prev + (excess - (1 - togw) * excess)) * c := mul_nonneg hG hc0
  simp only [flow_separation]
  refine ⟨trivial, trivial, trivial, trivial, trivial, ?_, ?_⟩
  · nlinarith [mul_nonneg hG (show (0:ℚ) ≤ 1 - c by linarith)]
  · have hsum : 0 ≤ ((1 - togw) * excess
        + (gw_prev + (excess - (1 - togw) * excess)) * c) / 1000 := by positivity
    exact mul_nonneg (mul_nonneg hsum hr0) hr1

/-- Witness for C6 at excess 2, previous ground water 1, the default
split fraction and base-flow coefficient, and unit cell size. -/
theorem flow_separation_spec_witness :
    (flow_separation (1/2) (1/5) 2 1 1 1).runoff = (1 - 1/2) * 2 ∧
      (flow_separation (1/2) (1/5) 2 1 1 1).recharge
        = 2 - (flow_separation (1/2) (1/5) 2 1 1 1).runoff ∧
      (flow_separation (1/2) (1/5) 2 1 1 1).base_flow
        = (1 + (flow_separation (1/2) (1/5) 2 1 1 1).recharge) * (1/5) ∧
      (flow_separation (1/2) (1/5) 2 1 1 1).gw_next
        = (1 + (flow_separation (1/2) (1/5) 2 1 1 1).recharge)
          - (flow_separation (1/2) (1/5) 2 1 1 1).base_flow ∧
      (flow_separation (1/2) (1/5) 2 1 1 1).outflow
        = ((flow_separation (1/2) (1/5) 2 1 1 1).runoff
            + (flow_separation (1/2) (1/5) 2 1 1 1).base_flow) / 1000 * 1 * 1 ∧
      0 ≤ (flow_separation (1/2) (1/5) 2 1 1 1).gw_next ∧
      0 ≤ (flow_separation (1/2) (1/5) 2 1 1 1).outflow :=
  flow_separation_spec (1/2) (1/5) 2 1 1 1 (by norm_num) (by norm_num)
    (by norm_num) (by norm_num) (by norm_num) (by norm_num) (by norm_num)
    (by norm_num)

/-- C8: all configuration errors are raised before any monthly state
transition: construction fails when no resolution is available (only
raw arrays, no explicit resolution), when the terrain shapes are
mismatched, or when the two climatological time series have different
lengths; and `simulate` without a heat index fails when the number of
months is not a multiple of 12, returning an error instead of ever
entering the monthly loop. -/
theorem config_errors_before_run :
    (∀ (raw : RawInput) (eps : ℚ), raw.arg_res = none → raw.raster_res = none →
      except_ok (init raw eps) = false) ∧
    (∀ (raw : RawInput) (eps : ℚ),
      ¬(raw.dem_shape = raw.cropf_shape ∧ raw.cropf_shape = raw.whc_shape) →
      except_ok (init raw eps) = false) ∧
    (∀ (raw : RawInput) (eps : ℚ), raw.prec_len ≠ raw.temp_len →
      except_ok (init raw eps) = false) ∧
    (∀ (ι : Type) [Fintype ι] [Nonempty ι] (cfg : Config ι) (exp : ℚ → ℚ)
      (rpow : ℚ → ℚ → ℚ) (accumulate : (ι → ℚ) → ι → ℚ)
      (alpha : Option (ι → ℚ)), cfg.months.length % 12 ≠ 0 →
      except_ok (simulate cfg exp rpow accumulate none alpha) = false) := by
  refine ⟨?_, ?_, ?_, ?_⟩
  · intro raw eps h1 h2
    have heff : effective_res raw = none := by simp [effective_res, h1, h2]
    simp [init, heff, except_ok]
  · intro raw eps h
    cases heff : effective_res raw with
    | none => simp [init, heff, except_ok]
    | some r => simp [init, heff, except_ok, h]
  · intro raw eps h
    cases heff : effective_res raw with
    | none => simp [init, heff, except_ok]
    | some r =>
        by_cases hsh : raw.dem_shape = raw.cropf_shape ∧
          raw.cropf_shape = raw.whc_shape <;>
        simp [init, heff, except_ok, h, hsh]
  · intro ι _ _ cfg exp rpow accumulate alpha h
    simp [simulate, except_ok, h]

/-- Witness for C8: a raw input with neither resolution, one with
mismatched shapes, one with mismatched time-series lengths, and a
one-month simulation without a heat index. -/
theorem config_errors_before_run_witness :
    except_ok (init ⟨(1, 1), (1, 1), (1, 1), [1], none, none, 1, 1⟩ (1/100))
        = false ∧
      except_ok (init ⟨(1, 1), (1, 2), (1, 1), [1], some (1, 1), none, 1, 1⟩
        (1/100)) = false ∧
      except_ok (init ⟨(1, 1), (1, 1), (1, 1), [1], some (1, 1), none, 1, 2⟩
        (1/100)) = false ∧
      except_ok (simulate
        (⟨{}, fun _ => 1, fun _ => 1, (1, 1), [⟨fun _ => 0, fun _ => 0⟩], []⟩ :
          Config (Fin 1)) (fun _ => 1) (fun _ _ => 1) id none none) = false :=
  ⟨config_errors_before_run.1 _ _ rfl rfl,
    config_errors_before_run.2.1 _ _ (by decide),
    config_errors_before_run.2.2.1 _ _ (by decide),
    config_errors_before_run.2.2.2 (Fin 1) _ _ _ _ none (by decide)⟩

/-- C9: with a strictly positive epsilon and a strictly positive WHC
coefficient, every cell of the water-holding-capacity grid stored at
construction (each non-positive input cell replaced by the epsilon) is
strictly positive, and so is the effective capacity
`whc * WHC_COEFF` used by every monthly soil-storage step.  The stored
grid is part of the immutable configuration of the embedding — the
monthly step only rewrites the three state grids — so this holds for
the whole run. -/
theorem whc_strictly_positive (raw : RawInput) (eps whcCoeff : ℚ)
    (r : InitResult) (heps : 0 < eps) (hco : 0 < whcCoeff)
    (hok : init raw eps = Except.ok r) :
    r.whc_values = raw.whc_values.map (fun w => if w ≤ 0 then eps else w) ∧
      ∀ w ∈ r.whc_values, 0 < w ∧ 0 < w * whcCoeff := by
  have hmap : r.whc_values =
      raw.whc_values.map (fun w => if w ≤ 0 then eps else w) := by
    cases heff : effective_res raw with
    | none =>
        simp only [init, heff] at hok
        exact Except.noConfusion hok
    | some rr =>
        simp only [init, heff] at hok
        by_cases hsh : raw.dem_shape = raw.cropf_shape ∧
            raw.cropf_shape = raw.whc_shape
        · by_cases hlen : raw.prec_len = raw.temp_len
          · rw [if_pos hsh, if_pos hlen] at hok
            injection hok with h
            rw [← h]
          · rw [if_pos hsh, if_neg hlen] at hok
            exact Except.noConfusion hok
        · rw [if_neg hsh] at hok
          exact Except.noConfusion hok
  refine ⟨hmap, ?_⟩
  intro w hw
  rw [hmap] at hw
  obtain ⟨w0, _, rfl⟩ := List.mem_map.mp hw
  by_cases h : w0 ≤ 0
  · rw [if_pos h]
    exact ⟨heps, mul_pos heps hco⟩
  · rw [if_neg h]
    have h' : 0 < w0 := lt_of_not_le h
    exact ⟨h', mul_pos h' hco⟩

/-- Witness for C9: the input cells `[-1, 2]` with epsilon `1/100`
become `[1/100, 2]`. -/
theorem whc_strictly_positive_witness :
    (⟨[(1 : ℚ)/100, 2], (1, 1), 3⟩ : InitResult).whc_values =
      [(-1 : ℚ), 2].map (fun w => if w ≤ 0 then 1/100 else w) :=
  (whc_strictly_positive ⟨(1, 1), (1, 1), (1, 1), [-1, 2], some (1, 1), none, 3, 3⟩
    (1/100) (3/2) _ (by norm_num) (by norm_num) (by norm_num [init, effective_res])).1

/-- C10: calling `simulate` with a heat index but no alpha behaves
exactly as calling it with the alpha derived elementwise from the heat
index by the Thornthwaite polynomial; `_compute_alpha` is that
polynomial; and the auto-derived branch applies the same
`_compute_alpha` to its auto-computed yearly heat index. -/
theorem alpha_from_heat_index {ι : Type} [Fintype ι] [Nonempty ι]
    (cfg : Config ι) (exp : ℚ → ℚ) (rpow : ℚ → ℚ → ℚ)
    (accumulate : (ι → ℚ) → ι → ℚ) (h : ι → ℚ) :
    simulate cfg exp rpow accumulate (some h) none =
      simulate cfg exp rpow accumulate (some h)
        (some (fun c => 0.49239 + 0.01792 * h c - 0.0000771771 * h c ^ 2
          + 0.000000675 * h c ^ 3)) ∧
    compute_alpha h = (fun c => 0.49239 + 0.01792 * h c - 0.0000771771 * h c ^ 2
      + 0.000000675 * h c ^ 3) ∧
    (auto_inputs cfg rpow).map MonthInput.alpha =
      (auto_inputs cfg rpow).map (fun inp => compute_alpha inp.heat) := by
  refine ⟨rfl, rfl, ?_⟩
  simp only [auto_inputs, List.map_map]
  congr 1

/-- Witness for C10 on a one-cell grid with constant heat index 1:
`_compute_alpha` evaluates to the Thornthwaite polynomial at 1. -/
theorem alpha_from_heat_index_witness :
    compute_alpha (fun _ : Fin 1 => 1) =
      (fun _ : Fin 1 => 0.49239 + 0.01792 * 1 - 0.0000771771 * 1 ^ 2
        + 0.000000675 * 1 ^ 3) :=
  (alpha_from_heat_index
    (⟨{}, fun _ => 1, fun _ => 1, (1, 1), [], []⟩ : Config (Fin 1))
    (fun _ => 1) (fun _ _ => 1) id (fun _ => 1)).2.1

/-- Helper: the monthly loop yields one raw gauge value per month. -/
theorem run_months_length (cfg : Config ι) (exp : ℚ → ℚ) (rpow : ℚ → ℚ → ℚ)
    (accumulate : (ι → ℚ) → ι → ℚ) :
    ∀ (inps : List (MonthInput ι)) (s : ι → CellState),
      (run_months cfg exp rpow accumulate inps s).length = inps.length := by
  intro inps
  induction inps with
  | nil => intro s; rfl
  | cons m ms ih => intro s; simp [run_months, ih]

/-- Helper: the i-th raw gauge value of the monthly loop is the maximum
of the accumulated outflow grid of month i, evaluated at the state
reached after the first i months. -/
theorem run_months_getD (cfg : Config ι) (exp : ℚ → ℚ) (rpow : ℚ → ℚ → ℚ)
    (accumulate : (ι → ℚ) → ι → ℚ) :
    ∀ (inps : List (MonthInput ι)) (s : ι → CellState) (i : ℕ),
      i < inps.length →
      (run_months cfg exp rpow accumulate inps s).getD i 0 =
        grid_max (accumulate (month_outflow cfg exp rpow
          (inps.getD i month_default)
          (state_at cfg exp rpow accumulate (inps.take i) s))) := by
  intro inps
  induction inps with
  | nil => intro s i h; simp at h
  | cons m ms ih =>
      intro s i h
      cases i with
      | zero => rfl
      | succ i =>
          have h' : i < ms.length := by simpa using h
          exact ih (simulation_step cfg exp rpow accumulate m s).2 i h'

/-- Helper: indexing commutes with the final elementwise division. -/
theorem getD_map_div (t : ℚ) :
    ∀ (xs : List ℚ) (i : ℕ), i < xs.length →
      (xs.map (fun g => g / t)).getD i 0 = xs.getD i 0 / t := by
  intro xs
  induction xs with
  | nil => intro i h; simp at h
  | cons x xs ih =>
      intro i h
      cases i with
      | zero => rfl
      | succ i => exact ih i (by simpa using h)

omit [Fintype ι] [Nonempty ι] in
/-- Helper: both branches of `simulate` build one month input per
month of climatological data. -/
theorem sim_inputs_length (cfg : Config ι) (rpow : ℚ → ℚ → ℚ)
    (heat_index alpha : Option (ι → ℚ)) :
    (sim_inputs cfg rpow heat_index alpha).length = cfg.months.length := by
  cases heat_index <;>
    simp [sim_inputs, given_inputs, auto_inputs, List.enum_length]

/-- C7: whenever `simulate` returns a series, the series has exactly
one scalar per input month, and its i-th entry is the maximum over all
cells of month i's accumulated-flow grid divided by the
seconds-per-month constant 2592000. -/
theorem simulate_gauge_series (cfg : Config ι) (exp : ℚ → ℚ)
    (rpow : ℚ → ℚ → ℚ) (accumulate : (ι → ℚ) → ι → ℚ)
    (heat_index alpha : Option (ι → ℚ)) (l : List ℚ)
    (hok : simulate cfg exp rpow accumulate heat_index alpha = Except.ok l) :
    l.length = cfg.months.length ∧
      ∀ i : ℕ, i < l.length →
        l.getD i 0 =
          grid_max (accumulate (month_outflow cfg exp rpow
            ((sim_inputs cfg rpow heat_index alpha).getD i month_default)
            (state_at cfg exp rpow accumulate
              ((sim_inputs cfg rpow heat_index alpha).take i) init_state)))
          / 2592000 := by
  have hl : l = (run_months cfg exp rpow accumulate
      (sim_inputs cfg rpow heat_index alpha) init_state).map
      (fun g => g / TIME_STEP) := by
    cases heat_index with
    | some h =>
        simp only [simulate] at hok
        exact (Except.ok.inj hok).symm
    | none =>
        simp only [simulate] at hok
        by_cases hmod : cfg.months.length % 12 ≠ 0
        · rw [if_pos hmod] at hok
          exact Except.noConfusion hok
        · rw [if_neg hmod] at hok
          exact (Except.ok.inj hok).symm
  have hrl : (run_months cfg exp rpow accumulate
      (sim_inputs cfg rpow heat_index alpha) init_state).length
      = cfg.months.length := by
    rw [run_months_length, sim_inputs_length]
  constructor
  · rw [hl, List.length_map, hrl]
  · intro i hi
    have hi' : i < (run_months cfg exp rpow accumulate
        (sim_inputs cfg rpow heat_index alpha) init_state).length := by
      rw [hl, List.length_map] at hi
      exact hi
    have hi'' : i < (sim_inputs cfg rpow heat_index alpha).length := by
      rw [run_months_length] at hi'
      exact hi'
    rw [hl, getD_map_div TIME_STEP _ i hi',
      run_months_getD cfg exp rpow accumulate _ init_state i hi'']
    rfl

/-- Witness for C7: a one-cell, one-month simulation with zero
precipitation and temperature, identity flow accumulation and unit
terrain data returns a series of length one. -/
theorem simulate_gauge_series_witness :
    ([(0 : ℚ)]).length =
      (⟨{}, fun _ => 1, fun _ => 1, (1, 1), [⟨fun _ => 0, fun _ => 0⟩], []⟩ :
        Config (Fin 1)).months.length :=
  (simulate_gauge_series
    (⟨{}, fun _ => 1, fun _ => 1, (1, 1), [⟨fun _ => 0, fun _ => 0⟩], []⟩ :
      Config (Fin 1)) (fun _ => 1) (fun _ _ => 1) id (some (fun _ => 1))
    (some (fun _ => 1)) [0]
    (by norm_num [simulate, TIME_STEP, given_inputs, List.enum, daylight_at,
      run_months, simulation_step, month_outflow, month_next_state, step_cell,
      snow_cell, soil_storage, flow_separation, potential_evapotranspiration,
      pe_cell, init_state, grid_max, Finset.sup'_const])).1

end PyStream
